import Mathlib

/-!
Shallow embedding of `models.py` from the online-bookstore repository.

Modelling conventions:
* Python `float` prices are modelled as rationals (`ℚ`); Python `int`
  quantities as `Int`; `datetime` timestamps as `PyDatetime`
  (whole seconds plus microseconds).
* Python raises are modelled with `Except String`, carrying the exact
  message of the `ValueError`.
* `CartItem` objects are mutable and shared by reference in Python
  (a `Cart` and an `Order` may alias the same `CartItem`).  We model the
  Python heap of `CartItem` objects explicitly as a list `CartItemStore`;
  an "address" is an index into that list, allocation appends at the end.
  A `Cart` pairs the heap with the insertion-ordered dict
  `title ↦ CartItem reference` that `Cart.items` holds in the source.
* `datetime.datetime.now()` is an ambient input; constructors that read the
  clock take the current timestamp as an explicit argument.
* `uuid.uuid4()` is an ambient source of fresh identifiers; functions that
  draw one take it as an explicit `String` argument.
-/

/-- Source `Book` from `models.py`: plain record of title, category, price and
image.  (The constructor validation of `Book.__init__` is not needed by any
claim and is omitted; all books below are well-formed values.) -/
structure Book where
  title : String
  category : String
  price : ℚ
  image : String
deriving DecidableEq, Repr

/-- Source `CartItem` from `models.py`: a Python object holding a shared `Book`
reference and a mutable quantity. -/
structure CartItem where
  book : Book
  quantity : Int
deriving DecidableEq, Repr

/-- Source `CartItem.get_total_price`: `self.book.price * self.quantity`. -/
def CartItem.get_total_price (it : CartItem) : ℚ :=
  it.book.price * (it.quantity : ℚ)

/-- The Python heap of `CartItem` objects: addresses are indices,
allocation appends at the end. -/
abbrev CartItemStore := List CartItem

/-- Read the `CartItem` object at address `a` (`none` for a dangling
address, which never occurs in reachable states). -/
def CartItemStore.read (σ : CartItemStore) (a : Nat) : Option CartItem :=
  σ[a]?

/-- In-place `item.quantity += q` on the object at address `a`
(models `self.items[book.title].quantity += quantity`). -/
def CartItemStore.bumpQty (σ : CartItemStore) (a : Nat) (q : Int) : CartItemStore :=
  match σ[a]? with
  | some it => σ.set a ⟨it.book, it.quantity + q⟩
  | none => σ

/-- In-place `item.quantity = q` on the object at address `a`
(models `self.items[book_title].quantity = quantity`). -/
def CartItemStore.setQty (σ : CartItemStore) (a : Nat) (q : Int) : CartItemStore :=
  match σ[a]? with
  | some it => σ.set a ⟨it.book, q⟩
  | none => σ

/-- Source `Cart` from `models.py` together with the heap its item references
point into.  `items` models the insertion-ordered Python dict
`Dict[str, CartItem]`: an association list from title to the address of
the referenced `CartItem` object. -/
structure Cart where
  store : CartItemStore
  items : List (String × Nat)
deriving DecidableEq, Repr

/-- Source `Cart.__init__`: empty dict (and, for the model, an empty heap). -/
def Cart.empty : Cart := ⟨[], []⟩

/-- Source `Cart.add_book(book, quantity)`:
raises unless `quantity > 0`; accumulates quantity in place when the title
is already a key; otherwise inserts a fresh `CartItem` at the end. -/
def Cart.add_book (c : Cart) (book : Book) (quantity : Int) : Except String Cart :=
  if quantity ≤ 0 then
    .error ("Must provide a postivie quantity when adding books to cart. Received "
      ++ toString quantity)
  else
    match c.items.find? (fun p => p.1 == book.title) with
    | some (_, a) => .ok ⟨c.store.bumpQty a quantity, c.items⟩
    | none => .ok ⟨c.store ++ [⟨book, quantity⟩], c.items ++ [(book.title, c.store.length)]⟩

/-- Source `Cart.remove_book(book_title)`: delete the entry if present, no-op
otherwise.  (Deletion drops the dict entry; the heap object itself is not
touched.) -/
def Cart.remove_book (c : Cart) (book_title : String) : Cart :=
  ⟨c.store, c.items.filter (fun p => p.1 != book_title)⟩

/-- Source `Cart.update_quantity(book_title, quantity)`:
raises when the title is absent; removes the entry when `quantity ≤ 0`;
otherwise overwrites the referenced item's quantity in place. -/
def Cart.update_quantity (c : Cart) (book_title : String) (quantity : Int) :
    Except String Cart :=
  match c.items.find? (fun p => p.1 == book_title) with
  | none =>
      .error ("Cannot update quantity for book \x27" ++ book_title
        ++ "\x27 as it is not in cart")
  | some (_, a) =>
      if quantity ≤ 0 then
        .ok (c.remove_book book_title)
      else
        .ok ⟨c.store.setQty a quantity, c.items⟩

/-- Source `Cart.get_total_price` without the final 2-decimal rounding step
(prices are exact rationals in the model, so the float-error rounding of
the source is the identity on the values that occur here). -/
def Cart.get_total_price (c : Cart) : ℚ :=
  (c.items.map (fun p => match c.store.read p.2 with
    | some it => it.get_total_price
    | none => 0)).sum

/-- Source `Cart.clear`: `self.items = {}` (heap objects are unaffected). -/
def Cart.clear (c : Cart) : Cart := ⟨c.store, []⟩

/-- Source `Cart.get_items`: `list(self.items.values())` — the referenced
`CartItem` objects in insertion order. -/
def Cart.get_items (c : Cart) : List (Option CartItem) :=
  c.items.map (fun p => c.store.read p.2)

/-- One mutating call on a cart, for reasoning about arbitrary call
sequences. -/
inductive CartOp where
  | add (book : Book) (quantity : Int)
  | remove (book_title : String)
  | update (book_title : String) (quantity : Int)
  | clear
deriving Repr

/-- Run one call; a raising call leaves the cart (and heap) unchanged,
matching Python where the `raise` happens before any mutation. -/
def Cart.applyOp (c : Cart) : CartOp → Cart
  | .add b q => match c.add_book b q with | .ok c2 => c2 | .error _ => c
  | .remove t => c.remove_book t
  | .update t q => match c.update_quantity t q with | .ok c2 => c2 | .error _ => c
  | .clear => c.clear

/-- Run a sequence of calls from a given cart state. -/
def Cart.run (c : Cart) (ops : List CartOp) : Cart :=
  ops.foldl Cart.applyOp c

/-- The cart representation invariant: at most one entry per title, every
entry's address points at a live `CartItem`, and every referenced item has
a strictly positive quantity. -/
def Cart.WF (c : Cart) : Prop :=
  (c.items.map Prod.fst).Nodup ∧
    ∀ p ∈ c.items, ∃ it, c.store.read p.2 = some it ∧ 0 < it.quantity

/-- Source `ShippingInfo` from `models.py` (its `__init__` validation is not
needed by any claim and is omitted). -/
structure ShippingInfo where
  name : String
  email : String
  address : String
  city : String
  zip_code : String
deriving DecidableEq, Repr

/-- Model of a `datetime.datetime` value at the resolution the program
uses: `seconds` is the whole-seconds part (the part that
`strftime("%Y-%m-%d %H:%M:%S")` prints, on which the formatting is
injective) and `micros` is the sub-second microsecond part, which
`datetime.datetime.now()` carries and comparison sees but the `strftime`
serialization truncates away. -/
structure PyDatetime where
  seconds : Int
  micros : Int
deriving DecidableEq, Repr

/-- Model of `datetime` comparison `t1 < t2`: lexicographic on the
(seconds, microseconds) decomposition, i.e. full sub-second resolution. -/
def PyDatetime.lt (t1 t2 : PyDatetime) : Bool :=
  decide (t1.seconds < t2.seconds) ||
    (decide (t1.seconds = t2.seconds) && decide (t1.micros < t2.micros))

/-- Model of `datetime` comparison `t1 <= t2`, lexicographic as well. -/
def PyDatetime.le (t1 t2 : PyDatetime) : Prop :=
  t1.seconds < t2.seconds ∨ (t1.seconds = t2.seconds ∧ t1.micros ≤ t2.micros)

/-- Source `Order` from `models.py`.  `items` is the list of `CartItem`
references produced by `items.copy()`: copying the Python list duplicates
the list cell but shares the `CartItem` objects, so the model keeps the
addresses.  `order_date` is the construction-time
`datetime.datetime.now()`, carried at full microsecond resolution;
`to_dict` below serializes only its whole-seconds part, exactly as
`strftime("%Y-%m-%d %H:%M:%S")` truncates the microseconds. -/
structure Order where
  order_id : String
  user_email : String
  items : List Nat
  shipping_info : ShippingInfo
  payment_method : String
  transaction_id : String
  total_amount : ℚ
  order_date : PyDatetime
  status : String
deriving DecidableEq, Repr

/-- Source `Order.__init__`: raises when `items` is empty (`if not items`),
otherwise stores all fields, captures `datetime.datetime.now()` (the
explicit `now` argument) and sets `status = "Confirmed"`. -/
def Order.make (order_id user_email : String) (items : List Nat)
    (shipping_info : ShippingInfo) (payment_method transaction_id : String)
    (total_amount : ℚ) (now : PyDatetime) : Except String Order :=
  if items.isEmpty then .error "Cannot create an order without items"
  else .ok ⟨order_id, user_email, items, shipping_info, payment_method,
    transaction_id, total_amount, now, "Confirmed"⟩

/-- One line of the `"items"` entry of `Order.to_dict`: title, quantity
and price of a referenced `CartItem`. -/
structure ItemDict where
  title : String
  quantity : Int
  price : ℚ
deriving DecidableEq, Repr

/-- The plain record produced by `Order.to_dict`.  Note what the `Order`
loses in serialization: `payment_method` and `transaction_id` are NOT
part of the record at all, and `order_date` appears only through the
truncating `strftime("%Y-%m-%d %H:%M:%S")` formatting, here the
whole-seconds part (`Int`) on which that formatting is injective — the
microseconds are dropped. -/
structure OrderDict where
  order_id : String
  user_email : String
  items : List ItemDict
  shipping_info : ShippingInfo
  total_amount : ℚ
  order_date : Int
  status : String
deriving DecidableEq, Repr

/-- Source `Order.to_dict`, reading the referenced `CartItem` objects from the
heap `σ` (the dangling-address default never occurs for orders built from
a live cart). -/
def Order.to_dict (σ : CartItemStore) (o : Order) : OrderDict :=
  { order_id := o.order_id
    user_email := o.user_email
    items := o.items.map (fun a => match σ.read a with
      | some it => ⟨it.book.title, it.quantity, it.book.price⟩
      | none => ⟨"", 0, 0⟩)
    shipping_info := o.shipping_info
    total_amount := o.total_amount
    order_date := o.order_date.seconds
    status := o.status }

/-- Source `Order.__eq__`: `self.to_dict() == other.to_dict()` (both sides read
the same Python heap `σ`). -/
def Order.eq (σ : CartItemStore) (o1 o2 : Order) : Bool :=
  decide (o1.to_dict σ = o2.to_dict σ)

/-- Source `Order.__lt__`: `self.order_date < other.order_date`, a full
resolution `datetime` comparison (microseconds included). -/
def Order.lt (o1 o2 : Order) : Bool :=
  PyDatetime.lt o1.order_date o2.order_date

/-- Source `User` from `models.py`.  The `password` field (a bcrypt hash drawn
with a random salt) plays no role in any claim and is omitted. -/
structure User where
  email : String
  name : String
  address : String
  orders : List Order
deriving Repr

/-- Source `User.__init__`: starts with an empty order history. -/
def User.init (email name address : String) : User :=
  ⟨email, name, address, []⟩

/-- Source `bisect.insort(self.orders, order)` as it behaves on the sorted lists
`add_order` maintains: insertion at the rightmost admissible position,
i.e. the linear right-biased ordered insert that walks past every element
`x` with `¬ order < x` (comparisons via `Order.__lt__`). -/
def bisectInsort (o : Order) : List Order → List Order
  | [] => [o]
  | x :: xs => if o.lt x then o :: x :: xs else x :: bisectInsort o xs

/-- Source `User.add_order(order)`: `bisect.insort(self.orders, order)`. -/
def User.add_order (u : User) (o : Order) : User :=
  { u with orders := bisectInsort o u.orders }

/-- Source `User.get_order_history`: returns `self.orders`. -/
def User.get_order_history (u : User) : List Order :=
  u.orders

/-- Python truthiness `not s` for an `Optional[str]`: true on `None` and
on the empty string. -/
def optStrFalsy : Option String → Bool
  | none => true
  | some s => s == ""

/-- Source `str.isdigit()` modelled for ASCII strings (the character class the
spec's "all digits" and the regex `\d` denote): non-empty and every
character in `0`–`9`. -/
def pyIsdigit (s : String) : Bool :=
  !(s == "") && s.data.all Char.isDigit

/-- The anchored body of the regex `^(0[1-9]|1[0-2])\/\d{2}$` on an exact
character list: month `01`–`09` or `10`–`12`, a slash, then two digits. -/
def expiryShape : List Char → Bool
  | [m1, m2, sl, d1, d2] =>
    (m1 == '0' && m2.isDigit && m2 != '0' ||
      m1 == '1' && (m2 == '0' || m2 == '1' || m2 == '2'))
    && sl == '/' && d1.isDigit && d2.isDigit
  | _ => false

/-- Source `re.match(r"^(0[1-9]|1[0-2])\/\d{2}$", expiry_date)`: in Python, `$`
matches at the end of the string or just before a single trailing
newline. -/
def reMatchExpiry (s : String) : Bool :=
  expiryShape s.data ||
    (s.data.getLast? == some '\n' && expiryShape s.data.dropLast)

/-- The `card_number` test of `CardPaymentInfo.__init__`:
`card_number` truthy, `card_number.isdigit()`, and `13 <= len <= 19`. -/
def validCardNumber : Option String → Bool
  | none => false
  | some s => !(s == "") && pyIsdigit s && decide (13 ≤ s.length) && decide (s.length ≤ 19)

/-- The `expiry_date` test of `CardPaymentInfo.__init__`: `expiry_date`
truthy and the regex matches. -/
def validExpiryDate : Option String → Bool
  | none => false
  | some s => !(s == "") && reMatchExpiry s

/-- The `cvv` test of `CardPaymentInfo.__init__`: `cvv` truthy,
`cvv.isdigit()`, and `3 <= len <= 4`. -/
def validCvv : Option String → Bool
  | none => false
  | some s => !(s == "") && pyIsdigit s && decide (3 ≤ s.length) && decide (s.length ≤ 4)

/-- Source `CardPaymentInfo` from `models.py`. -/
structure CardPaymentInfo where
  payment_method : String
  card_number : String
  expiry_date : String
  cvv : String
deriving DecidableEq, Repr

/-- Source `CardPaymentInfo.__init__`: the three field checks in source order,
each raising its own message, then `payment_method = "credit_card"`. -/
def CardPaymentInfo.make (card_number expiry_date cvv : Option String) :
    Except String CardPaymentInfo :=
  if !(validCardNumber card_number) then .error "Please provide a valid card number"
  else if !(validExpiryDate expiry_date) then .error "Please provide a valid expiry date"
  else if !(validCvv cvv) then .error "Please provide a valid cvv"
  else .ok ⟨"credit_card", card_number.getD "", expiry_date.getD "", cvv.getD ""⟩

/-- Source `PaypalPaymentInfo` from `models.py` (its `__init__` validation is not
needed by any claim and is omitted). -/
structure PaypalPaymentInfo where
  payment_method : String
  email : String
deriving DecidableEq, Repr

/-- Model of the `Union[CardPaymentInfo, PaypalPaymentInfo]` argument type of
`PaymentGateway.process_payment`. -/
inductive PaymentInfo where
  | card (info : CardPaymentInfo)
  | paypal (info : PaypalPaymentInfo)
deriving DecidableEq, Repr

/-- Source `PaymentResult` from `models.py`. -/
structure PaymentResult where
  message : String
  transaction_id : Option String
deriving DecidableEq, Repr

/-- Source `str.endswith(suffix)` on the underlying character lists. -/
def pyEndswith (s suffix : String) : Bool :=
  s.data.drop (s.data.length - suffix.data.length) == suffix.data

/-- Source `PaymentGateway.process_payment`: card numbers ending in `"1111"`
fail; everything else succeeds with transaction id `"TXN" + uuid4()` (the
fresh uuid is the explicit `fresh` argument). -/
def PaymentGateway.process_payment (payment_info : PaymentInfo) (fresh : String) :
    PaymentResult :=
  match payment_info with
  | .card info =>
      if pyEndswith info.card_number "1111" then
        ⟨"Payment failed: Invalid card number", none⟩
      else
        ⟨"Payment processed successfully", some ("TXN" ++ fresh)⟩
  | .paypal _ => ⟨"Payment processed successfully", some ("TXN" ++ fresh)⟩

/-- Sortedness of an order history: ascending `order_date` (full
`datetime` resolution). -/
def ordersSortedByDate (l : List Order) : Prop :=
  l.Pairwise (fun o1 o2 => PyDatetime.le o1.order_date o2.order_date)

/-- C2: for every payment info, `process_payment` yields the failure
result (message "Payment failed: Invalid card number", no transaction id)
exactly when the info is card info whose `card_number` ends in `"1111"`;
in every other case it yields message "Payment processed successfully"
and a transaction id that starts with `"TXN"`. -/
theorem c2_process_payment_spec (payment_info : PaymentInfo) (fresh : String) :
    (((PaymentGateway.process_payment payment_info fresh).transaction_id = none ∧
        (PaymentGateway.process_payment payment_info fresh).message =
          "Payment failed: Invalid card number") ↔
      ∃ info, payment_info = .card info ∧ pyEndswith info.card_number "1111" = true) ∧
    ((∀ info, payment_info = .card info → pyEndswith info.card_number "1111" = false) →
      (PaymentGateway.process_payment payment_info fresh).message =
          "Payment processed successfully" ∧
        ∃ rest, (PaymentGateway.process_payment payment_info fresh).transaction_id =
          some ("TXN" ++ rest)) := by
  cases payment_info with
  | card info =>
      by_cases h : pyEndswith info.card_number "1111" = true
      · refine ⟨⟨fun _ => ⟨info, rfl, h⟩, fun _ => ?_⟩, fun hall => ?_⟩
        · simp [PaymentGateway.process_payment, h]
        · exact absurd (hall info rfl) (by simp [h])
      · rw [Bool.not_eq_true] at h
        refine ⟨⟨fun hc => ?_, fun ⟨i, hi, hei⟩ => ?_⟩, fun _ => ?_⟩
        · simp [PaymentGateway.process_payment, h] at hc
        · cases hi; rw [hei] at h; cases h
        · exact ⟨by simp [PaymentGateway.process_payment, h], fresh,
            by simp [PaymentGateway.process_payment, h]⟩
  | paypal info =>
      refine ⟨⟨fun hc => ?_, fun ⟨i, hi, _⟩ => by cases hi⟩, fun _ => ?_⟩
      · simp [PaymentGateway.process_payment] at hc
      · exact ⟨rfl, fresh, rfl⟩

/-- Witness for C2 at a concrete paypal info and a concrete card. -/
theorem c2_process_payment_spec_witness :
    (PaymentGateway.process_payment (.paypal ⟨"paypal", "a@b.com"⟩) "u1").message =
        "Payment processed successfully" ∧
      ∃ rest, (PaymentGateway.process_payment (.paypal ⟨"paypal", "a@b.com"⟩)
        "u1").transaction_id = some ("TXN" ++ rest) :=
  (c2_process_payment_spec (.paypal ⟨"paypal", "a@b.com"⟩) "u1").2
    (fun _ h => by cases h)

/-- C7: the `CardPaymentInfo` constructor succeeds exactly when the card
number is non-empty, all digits, of length 13–19, the expiry date matches
`^(0[1-9]|1[0-2])/\d{2}$` (Python `re.match` semantics) and the cvv is
non-empty, all digits, of length 3–4; checks run in the fixed order
card number → expiry date → cvv, and the first failing field alone
determines the error message. -/
theorem c7_cardPaymentInfo_make_spec (card_number expiry_date cvv : Option String) :
    ((∃ info, CardPaymentInfo.make card_number expiry_date cvv = .ok info) ↔
      validCardNumber card_number = true ∧ validExpiryDate expiry_date = true ∧
        validCvv cvv = true) ∧
    (validCardNumber card_number = false →
      CardPaymentInfo.make card_number expiry_date cvv =
        .error "Please provide a valid card number") ∧
    (validCardNumber card_number = true → validExpiryDate expiry_date = false →
      CardPaymentInfo.make card_number expiry_date cvv =
        .error "Please provide a valid expiry date") ∧
    (validCardNumber card_number = true → validExpiryDate expiry_date = true →
      validCvv cvv = false →
      CardPaymentInfo.make card_number expiry_date cvv =
        .error "Please provide a valid cvv") := by
  unfold CardPaymentInfo.make
  rcases h1 : validCardNumber card_number <;>
    rcases h2 : validExpiryDate expiry_date <;>
      rcases h3 : validCvv cvv <;>
        simp

/-- Witness for C7 at concrete raw strings: a valid triple succeeds, and
a missing card number yields exactly the card-number message. -/
theorem c7_cardPaymentInfo_make_spec_witness :
    (∃ info, CardPaymentInfo.make (some "1234567890123") (some "12/25") (some "123") =
      .ok info) ∧
    CardPaymentInfo.make none (some "12/25") (some "123") =
      .error "Please provide a valid card number" :=
  ⟨((c7_cardPaymentInfo_make_spec (some "1234567890123") (some "12/25")
      (some "123")).1).2 (by decide),
    (c7_cardPaymentInfo_make_spec none (some "12/25") (some "123")).2.1 (by decide)⟩

/-- C9: `Order.__init__` fails with "Cannot create an order without
items" exactly when the items list is empty; on any non-empty items list
it succeeds, captures `order_date` as the construction-time clock value
(immutable afterwards: no operation on `Order` writes any field) and sets
`status` to "Confirmed". -/
theorem c9_order_make_spec (order_id user_email : String) (items : List Nat)
    (si : ShippingInfo) (pm tid : String) (amount : ℚ) (now : PyDatetime) :
    (items = [] → Order.make order_id user_email items si pm tid amount now =
      .error "Cannot create an order without items") ∧
    (items ≠ [] → ∃ o, Order.make order_id user_email items si pm tid amount now = .ok o ∧
      o.order_date = now ∧ o.status = "Confirmed" ∧ o.items = items) := by
  constructor
  · intro h; subst h; rfl
  · intro h
    refine ⟨⟨order_id, user_email, items, si, pm, tid, amount, now, "Confirmed"⟩, ?_, rfl, rfl, rfl⟩
    simp [Order.make, h]

/-- Witness for C9 at a concrete empty and a concrete non-empty items
list. -/
theorem c9_order_make_spec_witness :
    Order.make "order-1" "a@b.com" [] ⟨"N", "a@b.com", "A", "C", "Z"⟩ "credit_card" "T1"
        10 ⟨99, 7⟩ = .error "Cannot create an order without items" ∧
    ∃ o, Order.make "order-1" "a@b.com" [0] ⟨"N", "a@b.com", "A", "C", "Z"⟩ "credit_card"
        "T1" 10 ⟨99, 7⟩ = .ok o ∧ o.order_date = ⟨99, 7⟩ ∧ o.status = "Confirmed" ∧ o.items = [0] :=
  ⟨(c9_order_make_spec "order-1" "a@b.com" [] ⟨"N", "a@b.com", "A", "C", "Z"⟩
      "credit_card" "T1" 10 ⟨99, 7⟩).1 rfl,
    (c9_order_make_spec "order-1" "a@b.com" [0] ⟨"N", "a@b.com", "A", "C", "Z"⟩
      "credit_card" "T1" 10 ⟨99, 7⟩).2 (by simp)⟩

/-- Reading the bumped address after an in-place `quantity += q`. -/
theorem CartItemStore.read_bumpQty_self {σ : CartItemStore} {a : Nat} {it : CartItem}
    (h : σ.read a = some it) (q : Int) :
    (σ.bumpQty a q).read a = some ⟨it.book, it.quantity + q⟩ := by
  unfold CartItemStore.bumpQty
  unfold CartItemStore.read at h ⊢
  rw [h]
  have hlt : a < σ.length := (List.getElem?_eq_some.mp h).1
  simp [List.getElem?_set, hlt]

/-- Reading any other address after an in-place `quantity += q`. -/
theorem CartItemStore.read_bumpQty_other {σ : CartItemStore} {a a' : Nat}
    (h : a' ≠ a) (q : Int) :
    (σ.bumpQty a q).read a' = σ.read a' := by
  unfold CartItemStore.bumpQty
  unfold CartItemStore.read
  cases hσ : σ[a]? with
  | none => rfl
  | some it => simp [List.getElem?_set, Ne.symm h]

/-- Reading the written address after an in-place `quantity = q`. -/
theorem CartItemStore.read_setQty_self {σ : CartItemStore} {a : Nat} {it : CartItem}
    (h : σ.read a = some it) (q : Int) :
    (σ.setQty a q).read a = some ⟨it.book, q⟩ := by
  unfold CartItemStore.setQty
  unfold CartItemStore.read at h ⊢
  rw [h]
  have hlt : a < σ.length := (List.getElem?_eq_some.mp h).1
  simp [List.getElem?_set, hlt]

/-- Reading any other address after an in-place `quantity = q`. -/
theorem CartItemStore.read_setQty_other {σ : CartItemStore} {a a' : Nat}
    (h : a' ≠ a) (q : Int) :
    (σ.setQty a q).read a' = σ.read a' := by
  unfold CartItemStore.setQty
  unfold CartItemStore.read
  cases hσ : σ[a]? with
  | none => rfl
  | some it => simp [List.getElem?_set, Ne.symm h]

/-- C10: adding a book whose title is already in the cart only bumps the
stored quantity in place: the cart keeps the originally stored `CartItem`
(and so the originally stored `Book`), the differing fields of the new
`Book` value are discarded, every other heap object is untouched, and the
item's total is computed from the original book's price. -/
theorem c10_add_book_existing_title_spec (c : Cart) (b2 : Book) (q : Int)
    (t : String) (a : Nat) (it : CartItem) (hq : 0 < q)
    (hfind : c.items.find? (fun p => p.1 == b2.title) = some (t, a))
    (hread : c.store.read a = some it) :
    Cart.add_book c b2 q = .ok ⟨c.store.bumpQty a q, c.items⟩ ∧
    (c.store.bumpQty a q).read a = some ⟨it.book, it.quantity + q⟩ ∧
    (∀ a', a' ≠ a → (c.store.bumpQty a q).read a' = c.store.read a') ∧
    CartItem.get_total_price ⟨it.book, it.quantity + q⟩ =
      it.book.price * ((it.quantity : ℚ) + (q : ℚ)) := by
  refine ⟨?_, CartItemStore.read_bumpQty_self hread q,
    fun a' h => CartItemStore.read_bumpQty_other h q, ?_⟩
  · unfold Cart.add_book
    rw [if_neg (by omega : ¬ q ≤ 0), hfind]
  · unfold CartItem.get_total_price
    push_cast
    ring

/-- Witness for C10: a cart holding "B" at price 10, to which a book also
titled "B" but with different category, price and image is added. -/
theorem c10_add_book_existing_title_spec_witness :
    Cart.add_book ⟨[⟨⟨"B", "F", 10, "i"⟩, 1⟩], [("B", 0)]⟩ ⟨"B", "Sci", 99, "j"⟩ 2 =
      .ok ⟨CartItemStore.bumpQty [⟨⟨"B", "F", 10, "i"⟩, 1⟩] 0 2, [("B", 0)]⟩ ∧
    (CartItemStore.bumpQty [⟨⟨"B", "F", 10, "i"⟩, 1⟩] 0 2).read 0 =
      some ⟨⟨"B", "F", 10, "i"⟩, 1 + 2⟩ ∧
    (∀ a', a' ≠ 0 →
      (CartItemStore.bumpQty [⟨⟨"B", "F", 10, "i"⟩, 1⟩] 0 2).read a' =
        CartItemStore.read [⟨⟨"B", "F", 10, "i"⟩, 1⟩] a') ∧
    CartItem.get_total_price ⟨⟨"B", "F", 10, "i"⟩, 1 + 2⟩ =
      (⟨"B", "F", 10, "i"⟩ : Book).price * (((1 : Int) : ℚ) + ((2 : Int) : ℚ)) :=
  c10_add_book_existing_title_spec ⟨[⟨⟨"B", "F", 10, "i"⟩, 1⟩], [("B", 0)]⟩
    ⟨"B", "Sci", 99, "j"⟩ 2 "B" 0 ⟨⟨"B", "F", 10, "i"⟩, 1⟩ (by decide) (by decide)
    (by decide)

/-- C8: from a cart whose items do not contain b's title, adding (b, q)
twice with q > 0 leaves exactly one entry for b's title, whose heap object
is `CartItem b (2q)`; and `add_book` fails exactly when the supplied
quantity is ≤ 0, leaving the cart unchanged in that case. -/
theorem c8_add_book_twice_spec (c : Cart) (b : Book) (q : Int) (hq : 0 < q)
    (habs : c.items.find? (fun p => p.1 == b.title) = none) :
    ((Cart.applyOp (Cart.applyOp c (.add b q)) (.add b q)).items.filter
        (fun p => p.1 == b.title) = [(b.title, c.store.length)] ∧
      (Cart.applyOp (Cart.applyOp c (.add b q)) (.add b q)).store.read c.store.length =
        some ⟨b, 2 * q⟩) ∧
    ∀ (c' : Cart) (b' : Book) (q' : Int),
      ((∃ c2, Cart.add_book c' b' q' = .ok c2) ↔ 0 < q') ∧
      (q' ≤ 0 → Cart.applyOp c' (.add b' q') = c') := by
  have hq' : ¬ q ≤ 0 := by omega
  have h1 : Cart.add_book c b q =
      .ok ⟨c.store ++ [⟨b, q⟩], c.items ++ [(b.title, c.store.length)]⟩ := by
    unfold Cart.add_book
    rw [if_neg hq', habs]
  have happ1 : Cart.applyOp c (.add b q) =
      ⟨c.store ++ [⟨b, q⟩], c.items ++ [(b.title, c.store.length)]⟩ := by
    simp only [Cart.applyOp]
    rw [h1]
  have hfind2 : ((c.items ++ [(b.title, c.store.length)]).find?
      (fun p => p.1 == b.title)) = some (b.title, c.store.length) := by
    rw [List.find?_append, habs]
    simp
  have hread1 : (c.store ++ [⟨b, q⟩] : CartItemStore).read c.store.length =
      some ⟨b, q⟩ := List.getElem?_concat_length _ _
  have h2 : Cart.add_book ⟨c.store ++ [⟨b, q⟩], c.items ++ [(b.title, c.store.length)]⟩
      b q = .ok ⟨(c.store ++ [⟨b, q⟩] : CartItemStore).bumpQty c.store.length q,
        c.items ++ [(b.title, c.store.length)]⟩ := by
    simp only [Cart.add_book]
    rw [if_neg hq']
    rw [hfind2]
  have happ2 : Cart.applyOp (Cart.applyOp c (.add b q)) (.add b q) =
      ⟨(c.store ++ [⟨b, q⟩] : CartItemStore).bumpQty c.store.length q,
        c.items ++ [(b.title, c.store.length)]⟩ := by
    rw [happ1]
    simp only [Cart.applyOp]
    rw [h2]
  refine ⟨⟨?_, ?_⟩, ?_⟩
  · rw [happ2]
    rw [List.filter_append]
    have : c.items.filter (fun p => p.1 == b.title) = [] := by
      rw [List.filter_eq_nil_iff]
      exact List.find?_eq_none.mp habs
    rw [this]
    simp
  · rw [happ2, CartItemStore.read_bumpQty_self hread1 q]
    norm_num [two_mul]
  · intro c' b' q'
    constructor
    · constructor
      · rintro ⟨c2, hc2⟩
        by_contra hle
        rw [not_lt] at hle
        unfold Cart.add_book at hc2
        rw [if_pos hle] at hc2
        cases hc2
      · intro hpos
        have hne : ¬ q' ≤ 0 := by omega
        unfold Cart.add_book
        rw [if_neg hne]
        cases hf : c'.items.find? (fun p => p.1 == b'.title) with
        | none => exact ⟨_, rfl⟩
        | some pa => obtain ⟨t', a'⟩ := pa; exact ⟨_, rfl⟩
    · intro hle
      simp only [Cart.applyOp, Cart.add_book]
      rw [if_pos hle]

/-- Witness for C8: the empty cart, a concrete book, quantity 3. -/
theorem c8_add_book_twice_spec_witness :
    ((Cart.applyOp (Cart.applyOp Cart.empty (.add ⟨"B", "F", 10, "i"⟩ 3))
        (.add ⟨"B", "F", 10, "i"⟩ 3)).items.filter (fun p => p.1 == "B") =
        [("B", Cart.empty.store.length)] ∧
      (Cart.applyOp (Cart.applyOp Cart.empty (.add ⟨"B", "F", 10, "i"⟩ 3))
        (.add ⟨"B", "F", 10, "i"⟩ 3)).store.read Cart.empty.store.length =
        some ⟨⟨"B", "F", 10, "i"⟩, 2 * 3⟩) ∧
    ∀ (c' : Cart) (b' : Book) (q' : Int),
      ((∃ c2, Cart.add_book c' b' q' = .ok c2) ↔ 0 < q') ∧
      (q' ≤ 0 → Cart.applyOp c' (.add b' q') = c') :=
  c8_add_book_twice_spec Cart.empty ⟨"B", "F", 10, "i"⟩ 3 (by decide) (by decide)

/-- C3 (evaluation at the failing input): on the empty cart,
`update_quantity("Title 1", 0)` raises while `remove_book("Title 1")`
silently leaves the cart unchanged, so for an absent title the two calls
do not have the same success/failure behaviour. -/
theorem c3_update_quantity_absent_title_divergence :
    Cart.update_quantity Cart.empty "Title 1" 0 =
      .error "Cannot update quantity for book \x27Title 1\x27 as it is not in cart" ∧
    Cart.remove_book Cart.empty "Title 1" = Cart.empty :=
  ⟨rfl, rfl⟩

/-- C1 (counterexample): two Orders identical except for
`transaction_id` have equal serialized records — `to_dict` omits
`transaction_id` — and so `Order.__eq__` holds even though the field
differs, refuting "changing only that field makes the two Orders
unequal"; likewise two Orders whose `order_date`s differ only in the
microseconds within the same second serialize identically — `to_dict`
formats with the truncating `strftime("%Y-%m-%d %H:%M:%S")` — and
compare equal. -/
theorem c1_order_eq_counterexample :
    Order.eq [⟨⟨"B", "F", 10, "i"⟩, 1⟩]
      ⟨"order-1", "a@b.com", [0], ⟨"N", "a@b.com", "A", "C", "Z"⟩, "credit_card",
        "TXN-1", 10, ⟨0, 0⟩, "Confirmed"⟩
      ⟨"order-1", "a@b.com", [0], ⟨"N", "a@b.com", "A", "C", "Z"⟩, "credit_card",
        "TXN-2", 10, ⟨0, 0⟩, "Confirmed"⟩ = true ∧
    ("TXN-1" : String) ≠ "TXN-2" ∧
    Order.eq [⟨⟨"B", "F", 10, "i"⟩, 1⟩]
      ⟨"order-1", "a@b.com", [0], ⟨"N", "a@b.com", "A", "C", "Z"⟩, "credit_card",
        "TXN-1", 10, ⟨0, 1⟩, "Confirmed"⟩
      ⟨"order-1", "a@b.com", [0], ⟨"N", "a@b.com", "A", "C", "Z"⟩, "credit_card",
        "TXN-1", 10, ⟨0, 2⟩, "Confirmed"⟩ = true ∧
    (⟨0, 1⟩ : PyDatetime) ≠ ⟨0, 2⟩ := by
  refine ⟨by decide, by decide, by decide, by decide⟩

/-- C1 (amended): Order equality holds iff the serialized records are
equal; changing any field that feeds the serialized record (order_id,
user_email, shipping_info, total_amount, status, or the order_date up to
its serialized whole-seconds part) to a different serialized value breaks
equality, while `payment_method` and `transaction_id` are not serialized
at all and the microsecond part of `order_date` is truncated away by
`strftime("%Y-%m-%d %H:%M:%S")`, so changing only those never does. -/
theorem c1_order_eq_spec (σ : CartItemStore) (o1 o2 : Order) :
    (Order.eq σ o1 o2 = true ↔ Order.to_dict σ o1 = Order.to_dict σ o2) ∧
    (∀ s, Order.eq σ o1 { o1 with transaction_id := s } = true) ∧
    (∀ s, Order.eq σ o1 { o1 with payment_method := s } = true) ∧
    (∀ x, x ≠ o1.total_amount → Order.eq σ o1 { o1 with total_amount := x } = false) ∧
    (∀ s, s ≠ o1.order_id → Order.eq σ o1 { o1 with order_id := s } = false) ∧
    (∀ s, s ≠ o1.user_email → Order.eq σ o1 { o1 with user_email := s } = false) ∧
    (∀ si, si ≠ o1.shipping_info → Order.eq σ o1 { o1 with shipping_info := si } = false) ∧
    (∀ d : PyDatetime, d.seconds ≠ o1.order_date.seconds →
      Order.eq σ o1 { o1 with order_date := d } = false) ∧
    (∀ d : PyDatetime, d.seconds = o1.order_date.seconds →
      Order.eq σ o1 { o1 with order_date := d } = true) ∧
    (∀ s, s ≠ o1.status → Order.eq σ o1 { o1 with status := s } = false) := by
  refine ⟨by simp [Order.eq], ?_, ?_, ?_, ?_, ?_, ?_, ?_, ?_, ?_⟩
  · intro s; simp [Order.eq, Order.to_dict]
  · intro s; simp [Order.eq, Order.to_dict]
  · intro x hx; simp [Order.eq, Order.to_dict, hx]; exact fun h => hx h.symm
  · intro s hs; simp [Order.eq, Order.to_dict, hs]; exact fun h => hs h.symm
  · intro s hs; simp [Order.eq, Order.to_dict, hs]; exact fun h => hs h.symm
  · intro si hsi; simp [Order.eq, Order.to_dict, hsi]; exact fun h => hsi h.symm
  · intro d hd; simp [Order.eq, Order.to_dict, hd]; exact fun h => hd h.symm
  · intro d hd; simp [Order.eq, Order.to_dict, hd]
  · intro s hs; simp [Order.eq, Order.to_dict, hs]; exact fun h => hs h.symm

/-- Witness for C1 (amended) at a concrete order: changing only the
transaction id keeps equality. -/
theorem c1_order_eq_spec_witness :
    Order.eq []
      ⟨"order-1", "a@b.com", [], ⟨"N", "a@b.com", "A", "C", "Z"⟩, "credit_card",
        "TXN-1", 10, ⟨0, 0⟩, "Confirmed"⟩
      { (⟨"order-1", "a@b.com", [], ⟨"N", "a@b.com", "A", "C", "Z"⟩, "credit_card",
        "TXN-1", 10, ⟨0, 0⟩, "Confirmed"⟩ : Order) with transaction_id := "TXN-9" } = true :=
  (c1_order_eq_spec []
    ⟨"order-1", "a@b.com", [], ⟨"N", "a@b.com", "A", "C", "Z"⟩, "credit_card",
      "TXN-1", 10, ⟨0, 0⟩, "Confirmed"⟩
    ⟨"order-1", "a@b.com", [], ⟨"N", "a@b.com", "A", "C", "Z"⟩, "credit_card",
      "TXN-1", 10, ⟨0, 0⟩, "Confirmed"⟩).2.1 "TXN-9"

/-- C4 (counterexample): an Order is built from a cart holding one item
(quantity 1); the later cart mutation `update_quantity("B", 5)` rewrites
the shared `CartItem` object in the heap, and the completed Order's
recorded quantity changes from 1 to 5. -/
theorem c4_order_snapshot_counterexample :
    Order.make "order-1" "a@b.com" [0] ⟨"N", "a@b.com", "A", "C", "Z"⟩ "credit_card"
        "TXN-1" 10 ⟨0, 0⟩ =
      .ok ⟨"order-1", "a@b.com", [0], ⟨"N", "a@b.com", "A", "C", "Z"⟩, "credit_card",
        "TXN-1", 10, ⟨0, 0⟩, "Confirmed"⟩ ∧
    Cart.update_quantity ⟨[⟨⟨"B", "F", 10, "i"⟩, 1⟩], [("B", 0)]⟩ "B" 5 =
      .ok ⟨[⟨⟨"B", "F", 10, "i"⟩, 5⟩], [("B", 0)]⟩ ∧
    (Order.to_dict [⟨⟨"B", "F", 10, "i"⟩, 1⟩]
      ⟨"order-1", "a@b.com", [0], ⟨"N", "a@b.com", "A", "C", "Z"⟩, "credit_card",
        "TXN-1", 10, ⟨0, 0⟩, "Confirmed"⟩).items = [⟨"B", 1, 10⟩] ∧
    (Order.to_dict [⟨⟨"B", "F", 10, "i"⟩, 5⟩]
      ⟨"order-1", "a@b.com", [0], ⟨"N", "a@b.com", "A", "C", "Z"⟩, "credit_card",
        "TXN-1", 10, ⟨0, 0⟩, "Confirmed"⟩).items = [⟨"B", 5, 10⟩] ∧
    ([⟨"B", (1 : Int), (10 : ℚ)⟩] : List ItemDict) ≠ [⟨"B", 5, 10⟩] := by
  refine ⟨rfl, rfl, by decide, by decide, by decide⟩

/-- Reading below the allocation point is unaffected by appending. -/
theorem CartItemStore.read_append_left {σ τ : CartItemStore} {a : Nat}
    (h : a < σ.length) : (σ ++ τ).read a = σ.read a :=
  List.getElem?_append_left h

/-- C4 (amended): the Order's reference list is frozen at construction,
and every cart mutation that does not write a referenced `CartItem`
object — `remove_book`, `clear`, and `add_book` of a title not in the
cart — leaves the completed Order's serialized items unchanged.  (By
`c4_order_snapshot_counterexample`, `update_quantity` with a positive
quantity does change the completed Order, because the snapshot is a
shallow copy.) -/
theorem c4_order_snapshot_spec (c : Cart) (o : Order)
    (hv : ∀ a ∈ o.items, a < c.store.length) :
    (∀ t, Order.to_dict (c.remove_book t).store o = Order.to_dict c.store o) ∧
    Order.to_dict c.clear.store o = Order.to_dict c.store o ∧
    (∀ b q, c.items.find? (fun p => p.1 == b.title) = none →
      Order.to_dict (Cart.applyOp c (.add b q)).store o = Order.to_dict c.store o) := by
  refine ⟨fun t => rfl, rfl, fun b q hf => ?_⟩
  by_cases hq : q ≤ 0
  · simp only [Cart.applyOp, Cart.add_book]
    rw [if_pos hq]
  · have happ : Cart.applyOp c (.add b q) =
        ⟨c.store ++ [⟨b, q⟩], c.items ++ [(b.title, c.store.length)]⟩ := by
      simp only [Cart.applyOp, Cart.add_book]
      rw [if_neg hq, hf]
    rw [happ]
    simp only [Order.to_dict, OrderDict.mk.injEq, and_true, true_and]
    apply List.map_congr_left
    intro a ha
    rw [CartItemStore.read_append_left (hv a ha)]

/-- Witness for C4 (amended) at a concrete one-item cart and order. -/
theorem c4_order_snapshot_spec_witness :
    (∀ t, Order.to_dict
        ((⟨[⟨⟨"B", "F", 10, "i"⟩, 1⟩], [("B", 0)]⟩ : Cart).remove_book t).store
        ⟨"order-1", "a@b.com", [0], ⟨"N", "a@b.com", "A", "C", "Z"⟩, "credit_card",
          "TXN-1", 10, ⟨0, 0⟩, "Confirmed"⟩ =
      Order.to_dict [⟨⟨"B", "F", 10, "i"⟩, 1⟩]
        ⟨"order-1", "a@b.com", [0], ⟨"N", "a@b.com", "A", "C", "Z"⟩, "credit_card",
          "TXN-1", 10, ⟨0, 0⟩, "Confirmed"⟩) ∧
    Order.to_dict (⟨[⟨⟨"B", "F", 10, "i"⟩, 1⟩], [("B", 0)]⟩ : Cart).clear.store
        ⟨"order-1", "a@b.com", [0], ⟨"N", "a@b.com", "A", "C", "Z"⟩, "credit_card",
          "TXN-1", 10, ⟨0, 0⟩, "Confirmed"⟩ =
      Order.to_dict [⟨⟨"B", "F", 10, "i"⟩, 1⟩]
        ⟨"order-1", "a@b.com", [0], ⟨"N", "a@b.com", "A", "C", "Z"⟩, "credit_card",
          "TXN-1", 10, ⟨0, 0⟩, "Confirmed"⟩ ∧
    (∀ b q, (⟨[⟨⟨"B", "F", 10, "i"⟩, 1⟩], [("B", 0)]⟩ : Cart).items.find?
        (fun p => p.1 == b.title) = none →
      Order.to_dict (Cart.applyOp ⟨[⟨⟨"B", "F", 10, "i"⟩, 1⟩], [("B", 0)]⟩
          (.add b q)).store
        ⟨"order-1", "a@b.com", [0], ⟨"N", "a@b.com", "A", "C", "Z"⟩, "credit_card",
          "TXN-1", 10, ⟨0, 0⟩, "Confirmed"⟩ =
      Order.to_dict [⟨⟨"B", "F", 10, "i"⟩, 1⟩]
        ⟨"order-1", "a@b.com", [0], ⟨"N", "a@b.com", "A", "C", "Z"⟩, "credit_card",
          "TXN-1", 10, ⟨0, 0⟩, "Confirmed"⟩) :=
  c4_order_snapshot_spec ⟨[⟨⟨"B", "F", 10, "i"⟩, 1⟩], [("B", 0)]⟩
    ⟨"order-1", "a@b.com", [0], ⟨"N", "a@b.com", "A", "C", "Z"⟩, "credit_card",
      "TXN-1", 10, ⟨0, 0⟩, "Confirmed"⟩ (by decide)

/-- The empty cart satisfies the invariant. -/
theorem Cart.WF.empty : Cart.empty.WF :=
  ⟨List.nodup_nil, fun p hp => absurd hp (List.not_mem_nil p)⟩

/-- One cart call — succeeding or raising — preserves the invariant. -/
theorem Cart.WF.applyOp {c : Cart} (h : c.WF) (op : CartOp) : (c.applyOp op).WF := by
  obtain ⟨hnd, hpt⟩ := h
  have hremove : ∀ t : String, (c.remove_book t).WF := by
    intro t
    refine ⟨?_, fun p hp => hpt p (List.mem_of_mem_filter hp)⟩
    exact hnd.sublist ((List.filter_sublist _).map Prod.fst)
  cases op with
  | add b q =>
      by_cases hq : q ≤ 0
      · have : Cart.applyOp c (.add b q) = c := by
          simp only [Cart.applyOp, Cart.add_book]
          rw [if_pos hq]
        rw [this]
        exact ⟨hnd, hpt⟩
      · cases hf : c.items.find? (fun p => p.1 == b.title) with
        | some pa =>
            obtain ⟨t, a⟩ := pa
            have happ : Cart.applyOp c (.add b q) = ⟨c.store.bumpQty a q, c.items⟩ := by
              simp only [Cart.applyOp, Cart.add_book]
              rw [if_neg hq, hf]
            rw [happ]
            obtain ⟨ita, hita, hpa⟩ := hpt (t, a) (List.mem_of_find?_eq_some hf)
            refine ⟨hnd, fun p hp => ?_⟩
            by_cases hpeq : p.2 = a
            · rw [hpeq, CartItemStore.read_bumpQty_self hita q]
              exact ⟨_, rfl, show (0 : Int) < ita.quantity + q by omega⟩
            · rw [CartItemStore.read_bumpQty_other hpeq q]
              exact hpt p hp
        | none =>
            have happ : Cart.applyOp c (.add b q) =
                ⟨c.store ++ [⟨b, q⟩], c.items ++ [(b.title, c.store.length)]⟩ := by
              simp only [Cart.applyOp, Cart.add_book]
              rw [if_neg hq, hf]
            rw [happ]
            have habs : b.title ∉ c.items.map Prod.fst := by
              intro hmem
              obtain ⟨p, hp, hp1⟩ := List.mem_map.mp hmem
              exact absurd (by rw [hp1]; simp : (p.1 == b.title) = true)
                (by simpa using List.find?_eq_none.mp hf p hp)
            constructor
            · rw [List.map_append]
              rw [List.nodup_append]
              refine ⟨hnd, List.nodup_singleton _, ?_⟩
              intro x hx hx1
              simp only [List.map_cons, List.map_nil, List.mem_singleton] at hx1
              rw [hx1] at hx
              exact habs hx
            · intro p hp
              rcases List.mem_append.mp hp with hold | hnew
              · obtain ⟨it, hit, hpos⟩ := hpt p hold
                have hb : p.2 < c.store.length := (List.getElem?_eq_some.mp hit).1
                exact ⟨it, by rw [CartItemStore.read_append_left hb]; exact hit, hpos⟩
              · rw [List.mem_singleton.mp hnew]
                exact ⟨⟨b, q⟩, List.getElem?_concat_length _ _,
                  show (0 : Int) < q by omega⟩
  | remove t =>
      have : Cart.applyOp c (.remove t) = c.remove_book t := rfl
      rw [this]
      exact hremove t
  | update t q =>
      cases hf : c.items.find? (fun p => p.1 == t) with
      | none =>
          have : Cart.applyOp c (.update t q) = c := by
            simp only [Cart.applyOp, Cart.update_quantity]
            rw [hf]
          rw [this]
          exact ⟨hnd, hpt⟩
      | some pa =>
          obtain ⟨t', a⟩ := pa
          by_cases hq : q ≤ 0
          · have hupd : c.update_quantity t q = .ok (c.remove_book t) := by
              unfold Cart.update_quantity
              rw [hf]
              show (if q ≤ 0 then Except.ok (c.remove_book t)
                else Except.ok ⟨c.store.setQty a q, c.items⟩) = Except.ok (c.remove_book t)
              rw [if_pos hq]
            have : Cart.applyOp c (.update t q) = c.remove_book t := by
              simp only [Cart.applyOp]
              rw [hupd]
            rw [this]
            exact hremove t
          · have hupd : c.update_quantity t q = .ok ⟨c.store.setQty a q, c.items⟩ := by
              unfold Cart.update_quantity
              rw [hf]
              show (if q ≤ 0 then Except.ok (c.remove_book t)
                else Except.ok ⟨c.store.setQty a q, c.items⟩) =
                Except.ok ⟨c.store.setQty a q, c.items⟩
              rw [if_neg hq]
            have happ : Cart.applyOp c (.update t q) = ⟨c.store.setQty a q, c.items⟩ := by
              simp only [Cart.applyOp]
              rw [hupd]
            rw [happ]
            obtain ⟨ita, hita, hpa⟩ := hpt (t', a) (List.mem_of_find?_eq_some hf)
            refine ⟨hnd, fun p hp => ?_⟩
            by_cases hpeq : p.2 = a
            · rw [hpeq, CartItemStore.read_setQty_self hita q]
              exact ⟨_, rfl, show (0 : Int) < q by omega⟩
            · rw [CartItemStore.read_setQty_other hpeq q]
              exact hpt p hp
  | clear =>
      exact ⟨List.nodup_nil, fun p hp => absurd hp (List.not_mem_nil p)⟩

/-- C5: every cart state reachable from the empty cart by any sequence of
`add_book`, `remove_book`, `update_quantity` and `clear` calls — whether
each call succeeds or raises — holds at most one entry per book title,
and every stored `CartItem` has a strictly positive quantity (a zero or
negative update removes the entry instead of storing the value). -/
theorem c5_cart_invariant (ops : List CartOp) : (Cart.run Cart.empty ops).WF := by
  have hgen : ∀ (l : List CartOp) (c : Cart), c.WF → (Cart.run c l).WF := by
    intro l
    induction l with
    | nil => exact fun c h => h
    | cons op rest ih => exact fun c h => ih _ (h.applyOp op)
  exact hgen ops Cart.empty Cart.WF.empty

/-- Witness for C5 at a concrete operation sequence exercising every
operation, with both succeeding and raising calls. -/
theorem c5_cart_invariant_witness :
    (Cart.run Cart.empty
      [.add ⟨"B", "F", 10, "i"⟩ 2, .add ⟨"B", "F", 10, "i"⟩ 3,
        .add ⟨"C", "F", 5, "j"⟩ 0, .update "B" (-1), .update "Z" 7,
        .add ⟨"C", "F", 5, "j"⟩ 1, .update "C" 4, .remove "Z", .clear,
        .add ⟨"D", "F", 2, "k"⟩ 1]).WF :=
  c5_cart_invariant
    [.add ⟨"B", "F", 10, "i"⟩ 2, .add ⟨"B", "F", 10, "i"⟩ 3,
      .add ⟨"C", "F", 5, "j"⟩ 0, .update "B" (-1), .update "Z" 7,
      .add ⟨"C", "F", 5, "j"⟩ 1, .update "C" 4, .remove "Z", .clear,
      .add ⟨"D", "F", 2, "k"⟩ 1]

/-- Membership in the result of a `bisect.insort` insertion. -/
theorem mem_bisectInsort (o x : Order) (l : List Order) :
    x ∈ bisectInsort o l ↔ x = o ∨ x ∈ l := by
  induction l with
  | nil => simp [bisectInsort]
  | cons y ys ih =>
      unfold bisectInsort
      by_cases h : o.lt y = true
      · rw [if_pos h]
        simp [List.mem_cons]
      · rw [if_neg h]
        simp only [List.mem_cons, ih]
        tauto

/-- Inserting with `bisect.insort` preserves ascending order-date
sortedness. -/
theorem sorted_bisectInsort {l : List Order} (o : Order)
    (h : ordersSortedByDate l) : ordersSortedByDate (bisectInsort o l) := by
  unfold ordersSortedByDate at *
  induction l with
  | nil => simp [bisectInsort]
  | cons x xs ih =>
      rw [List.pairwise_cons] at h
      obtain ⟨hx, hxs⟩ := h
      unfold bisectInsort
      by_cases hlt : o.lt x = true
      · rw [if_pos hlt]
        have hox : PyDatetime.le o.order_date x.order_date := by
          simp only [Order.lt, PyDatetime.lt, Bool.or_eq_true, Bool.and_eq_true,
            decide_eq_true_eq] at hlt
          unfold PyDatetime.le
          omega
        refine List.Pairwise.cons ?_ (List.Pairwise.cons hx hxs)
        intro y hy
        rcases List.mem_cons.mp hy with rfl | hy2
        · exact hox
        · have hxy := hx y hy2
          unfold PyDatetime.le at hox hxy ⊢
          omega
      · rw [if_neg hlt]
        have hxo : PyDatetime.le x.order_date o.order_date := by
          simp only [Order.lt, PyDatetime.lt, Bool.or_eq_true, Bool.and_eq_true,
            decide_eq_true_eq] at hlt
          unfold PyDatetime.le
          omega
        refine List.Pairwise.cons ?_ (ih hxs)
        intro y hy
        rcases (mem_bisectInsort o y xs).mp hy with rfl | hy2
        · exact hxo
        · exact hx y hy2

/-- Orders with a date other than the inserted order's leave the
equal-date subsequence unchanged. -/
theorem filter_date_bisectInsort_ne (o : Order) (l : List Order) (d : PyDatetime)
    (hne : o.order_date ≠ d) :
    (bisectInsort o l).filter (fun x => x.order_date == d) =
      l.filter (fun x => x.order_date == d) := by
  induction l with
  | nil => simp [bisectInsort, hne]
  | cons x xs ih =>
      unfold bisectInsort
      by_cases hlt : o.lt x = true
      · rw [if_pos hlt]
        rw [List.filter_cons, List.filter_cons]
        simp [hne]
      · rw [if_neg hlt]
        rw [List.filter_cons, List.filter_cons]
        by_cases hxd : (x.order_date == d) = true
        · simp [hxd, ih]
        · simp [hxd, ih]

/-- On a sorted history, `bisect.insort` places an order after every
already-present order of the same date: the equal-date subsequence gains
the new order at its end. -/
theorem filter_date_bisectInsort_eq (o : Order) (l : List Order) (d : PyDatetime)
    (heq : o.order_date = d) (h : ordersSortedByDate l) :
    (bisectInsort o l).filter (fun x => x.order_date == d) =
      l.filter (fun x => x.order_date == d) ++ [o] := by
  unfold ordersSortedByDate at h
  induction l with
  | nil => simp [bisectInsort, heq]
  | cons x xs ih =>
      rw [List.pairwise_cons] at h
      obtain ⟨hx, hxs⟩ := h
      unfold bisectInsort
      by_cases hlt : o.lt x = true
      · rw [if_pos hlt]
        have hdx : d.seconds < x.order_date.seconds ∨
            (d.seconds = x.order_date.seconds ∧ d.micros < x.order_date.micros) := by
          simp only [Order.lt, PyDatetime.lt, Bool.or_eq_true, Bool.and_eq_true,
            decide_eq_true_eq] at hlt
          rw [heq] at hlt
          exact hlt
        have hxd : (x.order_date == d) = false := by
          simp only [beq_eq_false_iff_ne, ne_eq]
          intro hcontra
          rw [hcontra] at hdx
          omega
        have hxs_nil : xs.filter (fun y => y.order_date == d) = [] := by
          rw [List.filter_eq_nil_iff]
          intro y hy
          have hxy := hx y hy
          unfold PyDatetime.le at hxy
          simp only [beq_iff_eq]
          intro hcontra
          rw [hcontra] at hxy
          omega
        rw [List.filter_cons, List.filter_cons]
        simp [heq, hxd, hxs_nil]
      · rw [if_neg hlt]
        rw [List.filter_cons, List.filter_cons]
        by_cases hxd : (x.order_date == d) = true
        · simp [hxd, ih hxs]
        · simp [hxd, ih hxs]

/-- Folding `add_order` over any insertion sequence keeps the history
sorted and appends each date's orders in insertion sequence. -/
theorem add_orders_sorted_filter (os : List Order) :
    ∀ u : User, ordersSortedByDate u.orders →
      ordersSortedByDate ((os.foldl User.add_order u).orders) ∧
      ∀ d : PyDatetime, ((os.foldl User.add_order u).orders).filter
          (fun o => o.order_date == d) =
        u.orders.filter (fun o => o.order_date == d) ++
          os.filter (fun o => o.order_date == d) := by
  induction os with
  | nil => exact fun u hu => ⟨hu, fun d => by simp⟩
  | cons o rest ih =>
      intro u hu
      have hstep : ordersSortedByDate (User.add_order u o).orders :=
        sorted_bisectInsort o hu
      have hmain := ih (User.add_order u o) hstep
      refine ⟨hmain.1, fun d => ?_⟩
      rw [List.foldl_cons, hmain.2 d]
      show (bisectInsort o u.orders).filter (fun x => x.order_date == d) ++ _ = _
      by_cases hod : o.order_date = d
      · rw [filter_date_bisectInsort_eq o u.orders d hod hu]
        rw [List.filter_cons]
        simp [hod, List.append_assoc]
      · rw [filter_date_bisectInsort_ne o u.orders d hod]
        rw [List.filter_cons]
        simp [hod]

/-- C6: for every sequence of orders added through `User.add_order` in
any timestamp order, the user's order history is sorted ascending by
`order_date` — and this holds at every intermediate time, since the
insertion sequence is arbitrary — while for each date `d` the orders with
`order_date = d` appear in exactly their relative insertion sequence
(stable ties). -/
theorem c6_add_order_sorted_stable (email name address : String) (os : List Order) :
    ordersSortedByDate ((os.foldl User.add_order (User.init email name address)).orders) ∧
    ∀ d : PyDatetime, ((os.foldl User.add_order (User.init email name
        address)).orders).filter (fun o => o.order_date == d) =
      os.filter (fun o => o.order_date == d) := by
  have h := add_orders_sorted_filter os (User.init email name address)
    (by simp [ordersSortedByDate, User.init])
  exact ⟨h.1, fun d => by simpa [User.init] using h.2 d⟩
